import Mathlib

/-!
# Verification of `webrtc/audio/audio_send_stream.cc`

A shallow embedding of the decision logic of `AudioSendStream`
(`webrtc/audio/audio_send_stream.cc`): the codec-configuration procedure
`SetupSendCodec`, the stats aggregation `GetStats`, the bitrate callback
`OnBitrateUpdated`, the `Start`/`Stop` lifecycle calls, and the
constructor's NACK configuration call.

The channel (`ChannelProxy` / `VoECodec`) is external to the file under
study; it is modelled as an environment `ChannelEnv` recording how the
channel answers each call, and the procedures are modelled as pure
functions that return their result together with the ordered list of
calls they issue to the channel.
-/

namespace AudioSendStream

/-- Codec descriptor. Embeds the fields of `webrtc::CodecInst` that
`audio_send_stream.cc` reads: payload name, payload type, clock rate
(`plfreq`), channel count and bitrate (`rate`). Integer fields are `int`
in C++, embedded as `Int`; `channels` is a count, embedded as `Nat`. -/
structure CodecInst where
  plname : String
  pltype : Int
  plfreq : Int
  channels : Nat
  rate : Int
deriving DecidableEq, Repr

/-- Modelled from the spec: field-wise equality of codec descriptors
("field-wise equality including clock rate, channel count, plname,
payload type, bitrate"). The C++ `operator!=` on `webrtc::CodecInst`
used at line 344 is declared outside this repository's sources. -/
def codecInstEq (a b : CodecInst) : Bool :=
  a.plname == b.plname && a.pltype == b.pltype && a.plfreq == b.plfreq &&
    a.channels == b.channels && a.rate == b.rate

/-- The fixed Opus codec name `kOpusCodecName` (line 36). -/
def kOpusCodecName : String := "opus"

/-- ASCII lower-casing of a character's code point, as `tolower` does
on ASCII letters. -/
def asciiLower (c : Char) : Nat :=
  if 65 ≤ c.toNat ∧ c.toNat ≤ 90 then c.toNat + 32 else c.toNat

/-- Predicate `IsCodec` (lines 55-57): `_stricmp(codec.plname, ref_name) == 0`,
an ASCII case-insensitive string comparison, embedded by comparing the
ASCII-lower-cased code-point sequences of the two names. -/
def IsCodec (codec : CodecInst) (ref_name : String) : Bool :=
  codec.plname.data.map asciiLower == ref_name.data.map asciiLower

/-- The send-codec part of the stream configuration
(`config_.send_codec_spec`), with the fields `SetupSendCodec` reads:
codec descriptor, CNG payload type (`-1` = disabled) and CNG clock rate,
FEC enable flag, Opus DTX flag and Opus max playback rate. -/
structure SendCodecSpec where
  codec_inst : CodecInst
  cng_payload_type : Int
  cng_plfreq : Int
  enable_codec_fec : Bool
  enable_opus_dtx : Bool
  opus_max_playback_rate : Int
deriving DecidableEq, Repr

/-- A call issued by `SetupSendCodec` to the channel's codec interface.
`setSendCNPayloadType` records the payload type and the mapped
`PayloadFrequencies` value (in Hz). -/
inductive ChannelCall where
  | setVADStatus (enable : Bool)
  | setFECStatus (enable : Bool)
  | setSendCodec (codec : CodecInst)
  | setOpusDtx (enable : Bool)
  | setOpusMaxPlaybackRate (rate : Int)
  | setSendCNPayloadType (pltype : Int) (freq : Int)
deriving DecidableEq, Repr

/-- The channel's responses to the calls `SetupSendCodec` makes.
`currentCodec` is the outcome of the `GetSendCodec` query at line 343
(`none` = the query fails, i.e. returns non-zero). The `Bool` fields
record whether the corresponding setter succeeds. -/
structure ChannelEnv where
  currentCodec : Option CodecInst
  setSendCodecOk : Bool
  setFECStatusOk : Bool
  setOpusDtxOk : Bool
  setOpusMaxPlaybackRateOk : Bool
  setSendCNPayloadTypeOk : Bool
  setVADStatusOk : Bool
deriving DecidableEq, Repr

/-- The condition of lines 343-344: the codec-change call is made when
the `GetSendCodec` query fails or the requested descriptor differs
field-wise from the channel's current one. -/
def needSetCodec (spec : SendCodecSpec) (env : ChannelEnv) : Bool :=
  match env.currentCodec with
  | none => true
  | some current => !codecInstEq spec.codec_inst current

/-- Lines 425-436: inside the `cng_payload_type != -1` block, enable VAD
only if the CNG clock rate equals the codec's clock rate and the codec
is mono; a failure of `SetVADStatus(channel, true)` is fatal. -/
def vadStep (spec : SendCodecSpec) (env : ChannelEnv) (calls : List ChannelCall) :
    Bool × List ChannelCall :=
  if spec.cng_plfreq = spec.codec_inst.plfreq ∧ spec.codec_inst.channels = 1 then
    let calls := calls ++ [ChannelCall.setVADStatus true]
    if env.setVADStatusOk then (true, calls) else (false, calls)
  else (true, calls)

/-- Lines 392-437: the CN payload type / VAD block. When a CNG payload
type is configured, a clock rate other than the fixed 8000 Hz must map
to 16000 Hz or 32000 Hz (`RTC_NOTREACHED(); return false;` otherwise);
the `SetSendCNPayloadType` call's failure is only logged, never fatal
(lines 408-422). Then the VAD step runs. -/
def cnAndVadStep (spec : SendCodecSpec) (env : ChannelEnv) (calls : List ChannelCall) :
    Bool × List ChannelCall :=
  if spec.cng_payload_type ≠ -1 then
    if spec.cng_plfreq ≠ 8000 then
      if spec.cng_plfreq = 16000 ∨ spec.cng_plfreq = 32000 then
        -- The result of SetSendCNPayloadType is checked only for logging;
        -- a failure (env.setSendCNPayloadTypeOk = false) is tolerated.
        vadStep spec env
          (calls ++ [ChannelCall.setSendCNPayloadType spec.cng_payload_type spec.cng_plfreq])
      else (false, calls)
    else vadStep spec env calls
  else (true, calls)

/-- Lines 363-390: the Opus-only block. `SetOpusDtx` is always called
for an Opus codec and its failure is fatal; `SetOpusMaxPlaybackRate` is
called only for a positive configured rate, failure fatal. -/
def opusStep (spec : SendCodecSpec) (env : ChannelEnv) (calls : List ChannelCall) :
    Bool × List ChannelCall :=
  if IsCodec spec.codec_inst kOpusCodecName then
    let calls := calls ++ [ChannelCall.setOpusDtx spec.enable_opus_dtx]
    if env.setOpusDtxOk then
      if spec.opus_max_playback_rate > 0 then
        let calls := calls ++ [ChannelCall.setOpusMaxPlaybackRate spec.opus_max_playback_rate]
        if env.setOpusMaxPlaybackRateOk then cnAndVadStep spec env calls
        else (false, calls)
      else cnAndVadStep spec env calls
    else (false, calls)
  else cnAndVadStep spec env calls

/-- Lines 352-361: enable codec-internal FEC when requested, strictly
after the codec has been set; failure fatal. -/
def fecStep (spec : SendCodecSpec) (env : ChannelEnv) (calls : List ChannelCall) :
    Bool × List ChannelCall :=
  if spec.enable_codec_fec then
    let calls := calls ++ [ChannelCall.setFECStatus true]
    if env.setFECStatusOk then opusStep spec env calls else (false, calls)
  else opusStep spec env calls

/-- Procedure `AudioSendStream::SetupSendCodec` (lines 321-439), as a pure
function from the codec spec and the channel's responses to the boolean
result together with the ordered list of calls issued to the channel.
Lines 328-329 disable VAD and FEC unconditionally; lines 342-350 set
the codec only when needed, failure fatal; then FEC, Opus and CN/VAD
steps follow. -/
def SetupSendCodec (spec : SendCodecSpec) (env : ChannelEnv) : Bool × List ChannelCall :=
  let calls := [ChannelCall.setVADStatus false, ChannelCall.setFECStatus false]
  if needSetCodec spec env then
    let calls := calls ++ [ChannelCall.setSendCodec spec.codec_inst]
    if env.setSendCodecOk then fecStep spec env calls else (false, calls)
  else fecStep spec env calls

/-! ## Stats aggregation (`GetStats`, lines 194-275) -/

/-- The RTCP call statistics the channel returns
(`channel_proxy_->GetRTCPStatistics()`). `webrtc::CallStatistics` is
declared outside this repository's sources; modelled from the spec:
bytes/packets sent and a round-trip time in milliseconds (`int64_t`,
embedded as `Int`; `0` means "no RTCP report received yet"). -/
structure CallStats where
  bytesSent : Int
  packetsSent : Int
  rttMs : Int
deriving DecidableEq, Repr

/-- A remote RTCP report block. `webrtc::ReportBlock` is declared
outside this repository's sources; modelled from the spec: source
identifier, fractional loss in 1/256 units, cumulative packet-loss
count, extended highest sequence number, interarrival jitter in
samples — all non-negative counters. -/
structure ReportBlock where
  source_SSRC : Nat
  fraction_lost : Nat
  cumulative_num_packets_lost : Nat
  extended_highest_sequence_number : Nat
  interarrival_jitter : Nat
deriving DecidableEq, Repr

/-- Modelled from the spec: `Q8ToFloat` (from `webrtc/audio/conversion.h`,
outside this repository's sources) converts a fixed-point 1/256-unit
fraction to a normalized number; embedded over `ℚ`. -/
def Q8ToFloat (v : Nat) : ℚ := (v : ℚ) / 256

/-- The stats snapshot, with the fields `GetStats` fills from the call
statistics, the codec query and the report blocks. Fields that the
procedure may leave untouched are `Option`s, `none` standing for
"absent / left at its default". -/
structure Stats where
  local_ssrc : Nat
  bytes_sent : Int
  packets_sent : Int
  rtt_ms : Option Int
  codec_name : Option String
  packets_lost : Option Nat
  fraction_lost : Option ℚ
  ext_seqnum : Option Nat
  jitter_ms : Option Nat
deriving DecidableEq, Repr

/-- The RTCP-derived part of `AudioSendStream::GetStats` (lines 194-234)
as a function of the local SSRC (`config_.rtp.ssrc`), the channel's call
statistics, the outcome of the `GetSendCodec` query (`none` = the query
returned `-1`) and the remote RTCP report blocks. RTT is surfaced only
when positive (lines 205-209); the codec name and the report-block
fields are filled only when the codec query succeeds (lines 214-234);
the loop at lines 220-233 takes the first block whose `source_SSRC`
equals the local SSRC and breaks; jitter is converted from samples to
milliseconds with the codec's clock rate in kHz (C truncating `int`
division), only when that rate does not truncate to zero (lines
227-230). -/
def GetStats (ssrc : Nat) (call_stats : CallStats) (send_codec : Option CodecInst)
    (blocks : List ReportBlock) : Stats :=
  let s : Stats :=
    { local_ssrc := ssrc
      bytes_sent := call_stats.bytesSent
      packets_sent := call_stats.packetsSent
      rtt_ms := if call_stats.rttMs > 0 then some call_stats.rttMs else none
      codec_name := none
      packets_lost := none
      fraction_lost := none
      ext_seqnum := none
      jitter_ms := none }
  match send_codec with
  | none => s
  | some codec_inst =>
    let s := { s with codec_name := some codec_inst.plname }
    match blocks.find? (fun b => b.source_SSRC == ssrc) with
    | none => s
    | some block =>
      { s with
        packets_lost := some block.cumulative_num_packets_lost
        fraction_lost := some (Q8ToFloat block.fraction_lost)
        ext_seqnum := some block.extended_highest_sequence_number
        jitter_ms :=
          if Int.tdiv codec_inst.plfreq 1000 > 0 then
            some (block.interarrival_jitter / (Int.tdiv codec_inst.plfreq 1000).toNat)
          else none }

/-! ## Bitrate adaptation and lifecycle -/

/-- The adaptive-bitrate bounds of the stream configuration
(`config_.min_bitrate_kbps`, `config_.max_bitrate_kbps`; C++ `int`,
`-1` meaning "adaptation disabled"). -/
structure BitrateConfig where
  min_bitrate_kbps : Int
  max_bitrate_kbps : Int
deriving DecidableEq, Repr

/-- C++ `static_cast<uint32_t>` on an `int` value: reduction modulo
`2^32` (`%` on `Int` is Euclidean, so the result is in `[0, 2^32)`). -/
def uint32OfInt (i : Int) : Nat := (i % (2 ^ 32 : Int)).toNat

/-- Callback `AudioSendStream::OnBitrateUpdated` (lines 289-305): clamp the
allocated bitrate to `static_cast<uint32_t>(max_bitrate_kbps * 1000)`
(lines 296-298), apply the clamped value to the channel via
`SetBitrate` (line 300), and return `0` as the protection-overhead
estimate (line 304). The first component is the value applied to the
channel, the second the returned estimate. -/
def OnBitrateUpdated (cfg : BitrateConfig) (bitrate_bps : Nat) : Nat × Nat :=
  let max_bitrate_bps := uint32OfInt (cfg.max_bitrate_kbps * 1000)
  let applied := if bitrate_bps > max_bitrate_bps then max_bitrate_bps else bitrate_bps
  (applied, 0)

/-- An externally observable action of `Start` / `Stop`: bitrate
allocator (de)registration on the worker queue, and the channel-level
start/stop of sending. `addObserver` records the min/max bounds passed
to `BitrateAllocator::AddObserver` (in bps). -/
inductive StreamAction where
  | addObserver (minBps maxBps : Int)
  | removeObserver
  | startSend
  | stopSend
deriving DecidableEq, Repr

/-- Operation `AudioSendStream::Start` (lines 146-164) as its ordered list of
observable actions: when both configured bounds differ from `-1`,
synchronously register with the bitrate allocator with the bounds
scaled from kbps to bps (lines 148-157); then start sending on the
channel (lines 159-160). -/
def Start (cfg : BitrateConfig) : List StreamAction :=
  (if cfg.min_bitrate_kbps ≠ -1 ∧ cfg.max_bitrate_kbps ≠ -1 then
    [StreamAction.addObserver (cfg.min_bitrate_kbps * 1000) (cfg.max_bitrate_kbps * 1000)]
  else []) ++ [StreamAction.startSend]

/-- Operation `AudioSendStream::Stop` (lines 166-180) as its ordered list of
observable actions: always deregister from the bitrate allocator
(lines 168-173), then stop sending on the channel (lines 175-176). -/
def Stop : List StreamAction := [StreamAction.removeObserver, StreamAction.stopSend]

/-! ## Constructor NACK configuration -/

/-- The constructor's NACK configuration call (lines 117-118):
`SetNACKStatus(rtp_history_ms != 0, rtp_history_ms / 20)`. The history
window `config_.rtp.nack.rtp_history_ms` is declared outside this
repository's sources; modelled from the spec: a retransmission window
in milliseconds, `0` = disabled — a `Nat`. The first component is the
enable flag, the second the window in packet units (integer division
by the fixed 20 ms frame assumption). -/
def nackConfigCall (rtp_history_ms : Nat) : Bool × Nat :=
  (rtp_history_ms != 0, rtp_history_ms / 20)

/-! ## Closed-form characterizations of `SetupSendCodec`

Derived (proved, not assumed) closed forms for the call trace and the
boolean result of `SetupSendCodec`, used by the claim theorems below. -/

/-- The calls the VAD step contributes. -/
def vadCalls (s : SendCodecSpec) : List ChannelCall :=
  if s.cng_plfreq = s.codec_inst.plfreq ∧ s.codec_inst.channels = 1 then
    [ChannelCall.setVADStatus true]
  else []

/-- The calls the CN/VAD block contributes. -/
def cnVadCalls (s : SendCodecSpec) : List ChannelCall :=
  if s.cng_payload_type ≠ -1 then
    if s.cng_plfreq ≠ 8000 then
      if s.cng_plfreq = 16000 ∨ s.cng_plfreq = 32000 then
        ChannelCall.setSendCNPayloadType s.cng_payload_type s.cng_plfreq :: vadCalls s
      else []
    else vadCalls s
  else []

/-- The calls the Opus block and its continuation contribute. -/
def opusCalls (s : SendCodecSpec) (e : ChannelEnv) : List ChannelCall :=
  if IsCodec s.codec_inst kOpusCodecName then
    ChannelCall.setOpusDtx s.enable_opus_dtx ::
      (if e.setOpusDtxOk then
        if 0 < s.opus_max_playback_rate then
          ChannelCall.setOpusMaxPlaybackRate s.opus_max_playback_rate ::
            (if e.setOpusMaxPlaybackRateOk then cnVadCalls s else [])
        else cnVadCalls s
      else [])
  else cnVadCalls s

/-- The calls the FEC step and its continuation contribute. -/
def fecCalls (s : SendCodecSpec) (e : ChannelEnv) : List ChannelCall :=
  if s.enable_codec_fec then
    ChannelCall.setFECStatus true :: (if e.setFECStatusOk then opusCalls s e else [])
  else opusCalls s e

/-- The full call trace of `SetupSendCodec` in closed form. -/
def setupCalls (s : SendCodecSpec) (e : ChannelEnv) : List ChannelCall :=
  [ChannelCall.setVADStatus false, ChannelCall.setFECStatus false] ++
    (if needSetCodec s e then
      ChannelCall.setSendCodec s.codec_inst :: (if e.setSendCodecOk then fecCalls s e else [])
    else fecCalls s e)

theorem vadStep_snd (s : SendCodecSpec) (e : ChannelEnv) (calls : List ChannelCall) :
    (vadStep s e calls).2 = calls ++ vadCalls s := by
  unfold vadStep vadCalls
  split
  · split <;> simp
  · simp

theorem cnAndVadStep_snd (s : SendCodecSpec) (e : ChannelEnv) (calls : List ChannelCall) :
    (cnAndVadStep s e calls).2 = calls ++ cnVadCalls s := by
  unfold cnAndVadStep cnVadCalls
  split
  · split
    · split
      · simp [vadStep_snd]
      · simp
    · simp [vadStep_snd]
  · simp

theorem opusStep_snd (s : SendCodecSpec) (e : ChannelEnv) (calls : List ChannelCall) :
    (opusStep s e calls).2 = calls ++ opusCalls s e := by
  unfold opusStep opusCalls
  split
  · split
    · split
      · split <;> simp [cnAndVadStep_snd]
      · simp [cnAndVadStep_snd]
    · simp
  · simp [cnAndVadStep_snd]

theorem fecStep_snd (s : SendCodecSpec) (e : ChannelEnv) (calls : List ChannelCall) :
    (fecStep s e calls).2 = calls ++ fecCalls s e := by
  unfold fecStep fecCalls
  split
  · split <;> simp [opusStep_snd]
  · simp [opusStep_snd]

theorem SetupSendCodec_snd (s : SendCodecSpec) (e : ChannelEnv) :
    (SetupSendCodec s e).2 = setupCalls s e := by
  unfold SetupSendCodec setupCalls
  split
  · split <;> simp [fecStep_snd]
  · simp [fecStep_snd]

theorem vadStep_fst (s : SendCodecSpec) (e : ChannelEnv) (calls : List ChannelCall) :
    (vadStep s e calls).1 = true ↔
      (s.cng_plfreq = s.codec_inst.plfreq ∧ s.codec_inst.channels = 1 →
        e.setVADStatusOk = true) := by
  unfold vadStep
  split
  · split <;> simp_all
  · simp_all

theorem cnAndVadStep_fst (s : SendCodecSpec) (e : ChannelEnv) (calls : List ChannelCall) :
    (cnAndVadStep s e calls).1 = true ↔
      (s.cng_payload_type ≠ -1 →
        (s.cng_plfreq = 8000 ∨ s.cng_plfreq = 16000 ∨ s.cng_plfreq = 32000) ∧
        (s.cng_plfreq = s.codec_inst.plfreq ∧ s.codec_inst.channels = 1 →
          e.setVADStatusOk = true)) := by
  unfold cnAndVadStep
  split
  · split
    · split
      · rw [vadStep_fst]; tauto
      · simp_all
    · rw [vadStep_fst]; simp_all
  · simp_all

theorem opusStep_fst (s : SendCodecSpec) (e : ChannelEnv) (calls : List ChannelCall) :
    (opusStep s e calls).1 = true ↔
      (IsCodec s.codec_inst kOpusCodecName = true →
        e.setOpusDtxOk = true ∧
        (0 < s.opus_max_playback_rate → e.setOpusMaxPlaybackRateOk = true)) ∧
      (s.cng_payload_type ≠ -1 →
        (s.cng_plfreq = 8000 ∨ s.cng_plfreq = 16000 ∨ s.cng_plfreq = 32000) ∧
        (s.cng_plfreq = s.codec_inst.plfreq ∧ s.codec_inst.channels = 1 →
          e.setVADStatusOk = true)) := by
  unfold opusStep
  split
  · split
    · split
      · split
        · rw [cnAndVadStep_fst]; simp_all
        · simp_all
      · rw [cnAndVadStep_fst]; simp_all
    · simp_all
  · rw [cnAndVadStep_fst]; simp_all

theorem fecStep_fst (s : SendCodecSpec) (e : ChannelEnv) (calls : List ChannelCall) :
    (fecStep s e calls).1 = true ↔
      (s.enable_codec_fec = true → e.setFECStatusOk = true) ∧
      (IsCodec s.codec_inst kOpusCodecName = true →
        e.setOpusDtxOk = true ∧
        (0 < s.opus_max_playback_rate → e.setOpusMaxPlaybackRateOk = true)) ∧
      (s.cng_payload_type ≠ -1 →
        (s.cng_plfreq = 8000 ∨ s.cng_plfreq = 16000 ∨ s.cng_plfreq = 32000) ∧
        (s.cng_plfreq = s.codec_inst.plfreq ∧ s.codec_inst.channels = 1 →
          e.setVADStatusOk = true)) := by
  unfold fecStep
  split
  · split
    · rw [opusStep_fst]; simp_all
    · simp_all
  · rw [opusStep_fst]; simp_all

theorem SetupSendCodec_fst (s : SendCodecSpec) (e : ChannelEnv) :
    (SetupSendCodec s e).1 = true ↔
      (needSetCodec s e = true → e.setSendCodecOk = true) ∧
      (s.enable_codec_fec = true → e.setFECStatusOk = true) ∧
      (IsCodec s.codec_inst kOpusCodecName = true →
        e.setOpusDtxOk = true ∧
        (0 < s.opus_max_playback_rate → e.setOpusMaxPlaybackRateOk = true)) ∧
      (s.cng_payload_type ≠ -1 →
        (s.cng_plfreq = 8000 ∨ s.cng_plfreq = 16000 ∨ s.cng_plfreq = 32000) ∧
        (s.cng_plfreq = s.codec_inst.plfreq ∧ s.codec_inst.channels = 1 →
          e.setVADStatusOk = true)) := by
  unfold SetupSendCodec
  split
  · split
    · rw [fecStep_fst]; simp_all
    · simp_all
  · rw [fecStep_fst]; simp_all

theorem mem_vadCalls (s : SendCodecSpec) (x : ChannelCall) :
    x ∈ vadCalls s ↔
      (s.cng_plfreq = s.codec_inst.plfreq ∧ s.codec_inst.channels = 1) ∧
        x = ChannelCall.setVADStatus true := by
  unfold vadCalls
  split <;> simp_all

theorem mem_cnVadCalls (s : SendCodecSpec) (x : ChannelCall) :
    x ∈ cnVadCalls s ↔
      s.cng_payload_type ≠ -1 ∧
        ((s.cng_plfreq = 16000 ∨ s.cng_plfreq = 32000) ∧
            x = ChannelCall.setSendCNPayloadType s.cng_payload_type s.cng_plfreq ∨
          (s.cng_plfreq = 8000 ∨ s.cng_plfreq = 16000 ∨ s.cng_plfreq = 32000) ∧
            (s.cng_plfreq = s.codec_inst.plfreq ∧ s.codec_inst.channels = 1) ∧
            x = ChannelCall.setVADStatus true) := by
  unfold cnVadCalls
  split_ifs <;> simp_all [mem_vadCalls]

theorem mem_opusCalls (s : SendCodecSpec) (e : ChannelEnv) (x : ChannelCall) :
    x ∈ opusCalls s e ↔
      IsCodec s.codec_inst kOpusCodecName = true ∧
          x = ChannelCall.setOpusDtx s.enable_opus_dtx ∨
        IsCodec s.codec_inst kOpusCodecName = true ∧ e.setOpusDtxOk = true ∧
          0 < s.opus_max_playback_rate ∧
          x = ChannelCall.setOpusMaxPlaybackRate s.opus_max_playback_rate ∨
        (IsCodec s.codec_inst kOpusCodecName = true →
            e.setOpusDtxOk = true ∧
              (0 < s.opus_max_playback_rate → e.setOpusMaxPlaybackRateOk = true)) ∧
          x ∈ cnVadCalls s := by
  unfold opusCalls
  split_ifs <;> simp_all
  have hnr : ¬ 0 < s.opus_max_playback_rate := by omega
  tauto

theorem mem_fecCalls (s : SendCodecSpec) (e : ChannelEnv) (x : ChannelCall) :
    x ∈ fecCalls s e ↔
      s.enable_codec_fec = true ∧ x = ChannelCall.setFECStatus true ∨
        (s.enable_codec_fec = true → e.setFECStatusOk = true) ∧ x ∈ opusCalls s e := by
  unfold fecCalls
  split_ifs <;> simp_all

theorem mem_setupCalls (s : SendCodecSpec) (e : ChannelEnv) (x : ChannelCall) :
    x ∈ (SetupSendCodec s e).2 ↔
      x = ChannelCall.setVADStatus false ∨ x = ChannelCall.setFECStatus false ∨
        needSetCodec s e = true ∧ x = ChannelCall.setSendCodec s.codec_inst ∨
        (needSetCodec s e = true → e.setSendCodecOk = true) ∧ x ∈ fecCalls s e := by
  rw [SetupSendCodec_snd]
  unfold setupCalls
  split_ifs <;> simp_all

theorem needSetCodec_iff (s : SendCodecSpec) (e : ChannelEnv) :
    needSetCodec s e = true ↔
      e.currentCodec = none ∨
        ∃ cur, e.currentCodec = some cur ∧ codecInstEq s.codec_inst cur = false := by
  unfold needSetCodec
  cases e.currentCodec <;> simp

theorem codecInstEq_refl (a : CodecInst) : codecInstEq a a = true := by
  simp [codecInstEq]

theorem GetStats_rtt_ms (ssrc : Nat) (cs : CallStats) (sc : Option CodecInst)
    (blocks : List ReportBlock) :
    (GetStats ssrc cs sc blocks).rtt_ms =
      if cs.rttMs > 0 then some cs.rttMs else none := by
  unfold GetStats
  rcases sc with _ | ci
  · rfl
  · cases List.find? (fun b => b.source_SSRC == ssrc) blocks <;> rfl

/-! ## Claim theorems -/

set_option maxHeartbeats 1600000 in
/-- C1: `SetupSendCodec` issues the `SetSendCodec` call exactly when the
channel's `GetSendCodec` query fails or the active codec differs
field-wise from the requested descriptor; in particular, with the
requested codec already active (as after a previous successful setup),
no `SetSendCodec` call is issued. -/
theorem setup_codec_set_exactly_when_needed (s : SendCodecSpec) (e : ChannelEnv) :
    (ChannelCall.setSendCodec s.codec_inst ∈ (SetupSendCodec s e).2 ↔
      e.currentCodec = none ∨
        ∃ cur, e.currentCodec = some cur ∧ codecInstEq s.codec_inst cur = false) ∧
    ChannelCall.setSendCodec s.codec_inst ∉
      (SetupSendCodec s { e with currentCodec := some s.codec_inst }).2 := by
  have main : ∀ e' : ChannelEnv,
      ChannelCall.setSendCodec s.codec_inst ∈ (SetupSendCodec s e').2 ↔
        needSetCodec s e' = true := by
    intro e'
    rw [mem_setupCalls]
    simp [mem_fecCalls, mem_opusCalls, mem_cnVadCalls, mem_vadCalls]
  constructor
  · rw [main e, needSetCodec_iff]
  · rw [main]
    simp [needSetCodec, codecInstEq_refl]

/-- C2 (original claim refuted): it is not the case that after every
successful run of `SetupSendCodec`, VAD is enabled iff the CNG clock
rate equals the codec's clock rate and the codec is mono. Concretely,
with no CNG payload type configured (`cng_payload_type = -1`) but the
CNG clock-rate field equal to the codec's clock rate and a mono codec,
the run succeeds and VAD is never enabled. -/
theorem vad_gating_claim_counterexample :
    (SetupSendCodec ⟨⟨"PCMU", 0, 8000, 1, 64000⟩, -1, 8000, false, false, 0⟩
        ⟨none, true, true, true, true, true, true⟩).1 = true ∧
    (8000 : Int) = 8000 ∧ (1 : Nat) = 1 ∧
    ChannelCall.setVADStatus true ∉
      (SetupSendCodec ⟨⟨"PCMU", 0, 8000, 1, 64000⟩, -1, 8000, false, false, 0⟩
        ⟨none, true, true, true, true, true, true⟩).2 := by
  decide

set_option maxHeartbeats 1600000 in
/-- C2 (amended): after a successful run of `SetupSendCodec`, VAD is
enabled on the channel iff a CNG payload type is configured
(`cng_payload_type ≠ -1`) and the CNG clock rate equals the selected
codec's clock rate and the codec is single-channel. (The procedure
starts by disabling VAD, and `SetVADStatus(channel, true)` is the only
enabling call; its failure fails the procedure, so on a successful run
the call's presence in the trace is exactly "VAD enabled".) -/
theorem vad_gating_amended (s : SendCodecSpec) (e : ChannelEnv)
    (h : (SetupSendCodec s e).1 = true) :
    ChannelCall.setVADStatus true ∈ (SetupSendCodec s e).2 ↔
      s.cng_payload_type ≠ -1 ∧ s.cng_plfreq = s.codec_inst.plfreq ∧
        s.codec_inst.channels = 1 := by
  rw [SetupSendCodec_fst] at h
  rw [mem_setupCalls]
  simp only [mem_fecCalls, mem_opusCalls, mem_cnVadCalls, mem_vadCalls]
  simp
  tauto

/-- Witness for C2 (amended) at a concrete input: a mono 8000 Hz codec
with CNG payload type 13 at 8000 Hz on an all-succeeding channel. -/
theorem vad_gating_amended_witness :
    (SetupSendCodec ⟨⟨"PCMU", 0, 8000, 1, 64000⟩, 13, 8000, false, false, 0⟩
        ⟨none, true, true, true, true, true, true⟩).1 = true ∧
    ChannelCall.setVADStatus true ∈
      (SetupSendCodec ⟨⟨"PCMU", 0, 8000, 1, 64000⟩, 13, 8000, false, false, 0⟩
        ⟨none, true, true, true, true, true, true⟩).2 :=
  ⟨by decide, (vad_gating_amended _ _ (by decide)).mpr (by decide)⟩

/-- C3: under the caller's precondition that the allocated bitrate is at
least the configured minimum (in bps, after the code's `uint32` cast),
and for a maximum that does not overflow the cast, `OnBitrateUpdated`
applies the bitrate itself when it is at most `max_bitrate_kbps * 1000`
and exactly `max_bitrate_kbps * 1000` when it exceeds it, and always
returns `0` as the protection-overhead estimate. -/
theorem on_bitrate_updated_clamp (cfg : BitrateConfig) (bitrate_bps : Nat)
    (hpre : uint32OfInt (cfg.min_bitrate_kbps * 1000) ≤ bitrate_bps)
    (h0 : 0 ≤ cfg.max_bitrate_kbps) (hlt : cfg.max_bitrate_kbps * 1000 < 2 ^ 32) :
    (bitrate_bps ≤ (cfg.max_bitrate_kbps * 1000).toNat →
      (OnBitrateUpdated cfg bitrate_bps).1 = bitrate_bps) ∧
    ((cfg.max_bitrate_kbps * 1000).toNat < bitrate_bps →
      (OnBitrateUpdated cfg bitrate_bps).1 = (cfg.max_bitrate_kbps * 1000).toNat) ∧
    (OnBitrateUpdated cfg bitrate_bps).2 = 0 := by
  have hm : uint32OfInt (cfg.max_bitrate_kbps * 1000) = (cfg.max_bitrate_kbps * 1000).toNat := by
    unfold uint32OfInt
    rw [Int.emod_eq_of_lt (by positivity) hlt]
  unfold OnBitrateUpdated
  rw [hm]
  refine ⟨fun hle => ?_, fun hgt => ?_, rfl⟩
  · simp only [if_neg (by omega : ¬ bitrate_bps > (cfg.max_bitrate_kbps * 1000).toNat)]
  · simp only [if_pos (by omega : bitrate_bps > (cfg.max_bitrate_kbps * 1000).toNat)]

/-- Witness for C3 at a concrete input: bounds 64/128 kbps, allocated
bitrate 200000 bps (above max) and the clamp/return values. -/
theorem on_bitrate_updated_clamp_witness :
    uint32OfInt ((64 : Int) * 1000) ≤ 200000 ∧
    (OnBitrateUpdated ⟨64, 128⟩ 200000).1 = ((128 : Int) * 1000).toNat ∧
    (OnBitrateUpdated ⟨64, 128⟩ 200000).2 = 0 :=
  ⟨by decide,
   (on_bitrate_updated_clamp ⟨64, 128⟩ 200000 (by decide) (by decide) (by decide)).2.1
     (by decide),
   (on_bitrate_updated_clamp ⟨64, 128⟩ 200000 (by decide) (by decide) (by decide)).2.2⟩

set_option maxHeartbeats 1600000 in
/-- C4: in `SetupSendCodec`, (i) a CNG clock rate of 8000 Hz causes no
`SetSendCNPayloadType` call; (ii) with a CNG payload type configured, a
CNG clock rate outside {8000, 16000, 32000} makes the procedure return
failure; (iii) the channel's success or failure of the
`SetSendCNPayloadType` registration affects neither the result nor the
call trace; (iv) the result is `true` iff every fatal step succeeded —
a characterization in which the CNG-registration outcome does not
appear. -/
theorem cng_registration_tolerated (s : SendCodecSpec) (e : ChannelEnv) :
    (s.cng_plfreq = 8000 →
      ∀ p f, ChannelCall.setSendCNPayloadType p f ∉ (SetupSendCodec s e).2) ∧
    (s.cng_payload_type ≠ -1 → s.cng_plfreq ≠ 8000 → s.cng_plfreq ≠ 16000 →
      s.cng_plfreq ≠ 32000 → (SetupSendCodec s e).1 = false) ∧
    (∀ b, SetupSendCodec s { e with setSendCNPayloadTypeOk := b } = SetupSendCodec s e) ∧
    ((SetupSendCodec s e).1 = true ↔
      (needSetCodec s e = true → e.setSendCodecOk = true) ∧
      (s.enable_codec_fec = true → e.setFECStatusOk = true) ∧
      (IsCodec s.codec_inst kOpusCodecName = true →
        e.setOpusDtxOk = true ∧
        (0 < s.opus_max_playback_rate → e.setOpusMaxPlaybackRateOk = true)) ∧
      (s.cng_payload_type ≠ -1 →
        (s.cng_plfreq = 8000 ∨ s.cng_plfreq = 16000 ∨ s.cng_plfreq = 32000) ∧
        (s.cng_plfreq = s.codec_inst.plfreq ∧ s.codec_inst.channels = 1 →
          e.setVADStatusOk = true))) := by
  refine ⟨fun h8 p f => ?_, fun hcn h8 h16 h32 => ?_, fun b => rfl, SetupSendCodec_fst s e⟩
  · rw [mem_setupCalls]
    simp [mem_fecCalls, mem_opusCalls, mem_cnVadCalls, mem_vadCalls, h8]
  · cases hr : (SetupSendCodec s e).1
    · rfl
    · have := ((SetupSendCodec_fst s e).mp hr).2.2.2 hcn
      tauto

/-- Witness for C4 at a concrete input: CNG at 8000 Hz issues no
registration call, and an unsupported CNG rate (12345 Hz) fails the
procedure. -/
theorem cng_registration_tolerated_witness :
    ChannelCall.setSendCNPayloadType 13 8000 ∉
      (SetupSendCodec ⟨⟨"PCMU", 0, 8000, 1, 64000⟩, 13, 8000, false, false, 0⟩
        ⟨none, true, true, true, true, true, true⟩).2 ∧
    (SetupSendCodec ⟨⟨"PCMU", 0, 8000, 1, 64000⟩, 13, 12345, false, false, 0⟩
      ⟨none, true, true, true, true, true, true⟩).1 = false :=
  ⟨(cng_registration_tolerated _ _).1 rfl 13 8000,
   (cng_registration_tolerated _ _).2.1 (by decide) (by decide) (by decide) (by decide)⟩

/-- C5: over the configuration domain where each bound is `-1` or a
non-negative kbps value, `Start` registers with the bitrate allocator
(with bounds scaled from kbps to bps) and then starts sending exactly
when both bounds are non-negative, and only starts sending otherwise;
`Stop` always deregisters and then stops sending. -/
theorem start_stop_allocator_registration (cfg : BitrateConfig)
    (hmin : -1 ≤ cfg.min_bitrate_kbps) (hmax : -1 ≤ cfg.max_bitrate_kbps) :
    (0 ≤ cfg.min_bitrate_kbps ∧ 0 ≤ cfg.max_bitrate_kbps →
      Start cfg =
        [StreamAction.addObserver (cfg.min_bitrate_kbps * 1000) (cfg.max_bitrate_kbps * 1000),
         StreamAction.startSend]) ∧
    (¬(0 ≤ cfg.min_bitrate_kbps ∧ 0 ≤ cfg.max_bitrate_kbps) →
      Start cfg = [StreamAction.startSend]) ∧
    ((∃ a b, StreamAction.addObserver a b ∈ Start cfg) ↔
      0 ≤ cfg.min_bitrate_kbps ∧ 0 ≤ cfg.max_bitrate_kbps) ∧
    Stop = [StreamAction.removeObserver, StreamAction.stopSend] := by
  unfold Start Stop
  split_ifs with h
  · refine ⟨fun _ => rfl, fun hc => absurd ⟨by omega, by omega⟩ hc, ?_, rfl⟩
    simp only [List.cons_append, List.nil_append, List.mem_cons, List.not_mem_nil]
    constructor
    · intro _; exact ⟨by omega, by omega⟩
    · intro _
      exact ⟨cfg.min_bitrate_kbps * 1000, cfg.max_bitrate_kbps * 1000, Or.inl rfl⟩
  · refine ⟨fun hc => absurd h (by omega), fun _ => rfl, ?_, rfl⟩
    simp only [List.nil_append, List.mem_cons, List.not_mem_nil]
    constructor
    · rintro ⟨a, b, hab⟩
      simp at hab
    · intro hc
      exact absurd h (by omega)

/-- Witness for C5 at a concrete input: bounds 64/128 kbps. -/
theorem start_stop_allocator_registration_witness :
    Start ⟨64, 128⟩ = [StreamAction.addObserver 64000 128000, StreamAction.startSend] ∧
    Stop = [StreamAction.removeObserver, StreamAction.stopSend] :=
  ⟨(start_stop_allocator_registration ⟨64, 128⟩ (by decide) (by decide)).1 (by decide),
   (start_stop_allocator_registration ⟨64, 128⟩ (by decide) (by decide)).2.2.2⟩

set_option maxHeartbeats 1600000 in
/-- C6: for a codec whose name is not "opus" under case-insensitive
comparison, `SetupSendCodec` never issues the `SetOpusDtx` call nor the
`SetOpusMaxPlaybackRate` call, whatever the configured DTX flag and max
playback rate; for an Opus codec, a `SetOpusMaxPlaybackRate` call is
issued only if the configured rate is positive. -/
theorem opus_branch_gating (s : SendCodecSpec) (e : ChannelEnv) :
    (IsCodec s.codec_inst kOpusCodecName = false →
      (∀ b, ChannelCall.setOpusDtx b ∉ (SetupSendCodec s e).2) ∧
      (∀ r, ChannelCall.setOpusMaxPlaybackRate r ∉ (SetupSendCodec s e).2)) ∧
    (IsCodec s.codec_inst kOpusCodecName = true →
      ∀ r, ChannelCall.setOpusMaxPlaybackRate r ∈ (SetupSendCodec s e).2 →
        0 < s.opus_max_playback_rate) := by
  constructor
  · intro hno
    constructor <;> intro x <;> rw [mem_setupCalls] <;>
      simp [mem_fecCalls, mem_opusCalls, mem_cnVadCalls, mem_vadCalls, hno]
  · intro hyes r hmem
    rw [mem_setupCalls] at hmem
    simp [mem_fecCalls, mem_opusCalls, mem_cnVadCalls, mem_vadCalls, hyes] at hmem
    tauto

/-- Witness for C6 at a concrete input: a non-Opus codec with the DTX
flag set and a positive configured playback rate still issues neither
Opus call. -/
theorem opus_branch_gating_witness :
    IsCodec ⟨"PCMU", 0, 8000, 1, 64000⟩ kOpusCodecName = false ∧
    ChannelCall.setOpusDtx true ∉
      (SetupSendCodec ⟨⟨"PCMU", 0, 8000, 1, 64000⟩, -1, 0, false, true, 24000⟩
        ⟨none, true, true, true, true, true, true⟩).2 ∧
    ChannelCall.setOpusMaxPlaybackRate 24000 ∉
      (SetupSendCodec ⟨⟨"PCMU", 0, 8000, 1, 64000⟩, -1, 0, false, true, 24000⟩
        ⟨none, true, true, true, true, true, true⟩).2 :=
  ⟨by decide,
   ((opus_branch_gating _ _).1 (by decide)).1 true,
   ((opus_branch_gating _ _).1 (by decide)).2 24000⟩

/-- C7: the snapshot's RTT field is unset when the channel reports an
RTT of 0, is never `some 0`, and equals the channel's (non-negative,
non-zero) value otherwise. -/
theorem rtt_absent_when_zero (ssrc : Nat) (cs : CallStats) (sc : Option CodecInst)
    (blocks : List ReportBlock) :
    (cs.rttMs = 0 → (GetStats ssrc cs sc blocks).rtt_ms = none) ∧
    (GetStats ssrc cs sc blocks).rtt_ms ≠ some 0 ∧
    (0 ≤ cs.rttMs → cs.rttMs ≠ 0 →
      (GetStats ssrc cs sc blocks).rtt_ms = some cs.rttMs) := by
  rw [GetStats_rtt_ms]
  refine ⟨fun h0 => ?_, ?_, fun hn hz => ?_⟩
  · rw [if_neg (by omega)]
  · split_ifs with h
    · simp
      omega
    · simp
  · rw [if_pos (by omega)]

/-- Witness for C7 at concrete inputs: RTT 0 is absent, RTT 30 is
surfaced. -/
theorem rtt_absent_when_zero_witness :
    (GetStats 5 ⟨100, 10, 0⟩ none []).rtt_ms = none ∧
    (GetStats 5 ⟨100, 10, 30⟩ none []).rtt_ms = some 30 :=
  ⟨(rtt_absent_when_zero 5 ⟨100, 10, 0⟩ none []).1 rfl,
   (rtt_absent_when_zero 5 ⟨100, 10, 30⟩ none []).2.2 (by decide) (by decide)⟩

/-- C8: the snapshot's packet-loss, fraction-lost, extended-sequence-
number and jitter fields come only from the first remote report block
whose source identifier equals the local SSRC (`List.find?`): if no
block matches they all stay unset, and if the codec query succeeded and
a first match exists they are exactly the values derived from that
block. -/
theorem report_block_selection (ssrc : Nat) (cs : CallStats) (sc : Option CodecInst)
    (blocks : List ReportBlock) :
    (List.find? (fun b => b.source_SSRC == ssrc) blocks = none →
      (GetStats ssrc cs sc blocks).packets_lost = none ∧
      (GetStats ssrc cs sc blocks).fraction_lost = none ∧
      (GetStats ssrc cs sc blocks).ext_seqnum = none ∧
      (GetStats ssrc cs sc blocks).jitter_ms = none) ∧
    (∀ ci block, sc = some ci →
      List.find? (fun b => b.source_SSRC == ssrc) blocks = some block →
      (GetStats ssrc cs sc blocks).packets_lost = some block.cumulative_num_packets_lost ∧
      (GetStats ssrc cs sc blocks).fraction_lost = some (Q8ToFloat block.fraction_lost) ∧
      (GetStats ssrc cs sc blocks).ext_seqnum = some block.extended_highest_sequence_number ∧
      (GetStats ssrc cs sc blocks).jitter_ms =
        (if Int.tdiv ci.plfreq 1000 > 0 then
          some (block.interarrival_jitter / (Int.tdiv ci.plfreq 1000).toNat)
        else none)) := by
  constructor
  · intro hf
    unfold GetStats
    rcases sc with _ | ci <;> simp [hf]
  · intro ci block hsc hf
    subst hsc
    unfold GetStats
    simp [hf]

/-- Witness for C8 at a concrete input: two blocks, only the second
matches SSRC 5 and supplies the fields; with no matching block the
fields stay unset. -/
theorem report_block_selection_witness :
    ((GetStats 5 ⟨100, 10, 0⟩ (some ⟨"PCMU", 0, 8000, 1, 64000⟩)
        [⟨4, 10, 3, 7, 800⟩, ⟨5, 12, 4, 9, 800⟩]).packets_lost = some 4 ∧
      (GetStats 5 ⟨100, 10, 0⟩ (some ⟨"PCMU", 0, 8000, 1, 64000⟩)
        [⟨4, 10, 3, 7, 800⟩, ⟨5, 12, 4, 9, 800⟩]).jitter_ms = some 100) ∧
    (GetStats 5 ⟨100, 10, 0⟩ (some ⟨"PCMU", 0, 8000, 1, 64000⟩)
      [⟨4, 10, 3, 7, 800⟩]).packets_lost = none := by
  have h1 := (report_block_selection 5 ⟨100, 10, 0⟩ (some ⟨"PCMU", 0, 8000, 1, 64000⟩)
    [⟨4, 10, 3, 7, 800⟩, ⟨5, 12, 4, 9, 800⟩]).2 ⟨"PCMU", 0, 8000, 1, 64000⟩
    ⟨5, 12, 4, 9, 800⟩ rfl (by decide)
  have h2 := (report_block_selection 5 ⟨100, 10, 0⟩ (some ⟨"PCMU", 0, 8000, 1, 64000⟩)
    [⟨4, 10, 3, 7, 800⟩]).1 (by decide)
  exact ⟨⟨h1.1, by rw [h1.2.2.2]; decide⟩, h2.1⟩

/-- C9: the constructor's NACK configuration call enables NACK iff the
configured millisecond history window is positive, and passes the
window integer-divided by 20 as the packet-unit window. -/
theorem nack_constructor_config (w : Nat) :
    ((nackConfigCall w).1 = true ↔ 0 < w) ∧ (nackConfigCall w).2 = w / 20 := by
  unfold nackConfigCall
  refine ⟨?_, rfl⟩
  simp [Nat.pos_iff_ne_zero]

/-- C10: when the channel's active-send-codec query fails, the
snapshot's codec name and all report-block-derived fields stay unset as
a group, for every list of remote report blocks (matching ones
included). -/
theorem stats_codec_query_failure_coupling (ssrc : Nat) (cs : CallStats)
    (blocks : List ReportBlock) :
    (GetStats ssrc cs none blocks).codec_name = none ∧
    (GetStats ssrc cs none blocks).packets_lost = none ∧
    (GetStats ssrc cs none blocks).fraction_lost = none ∧
    (GetStats ssrc cs none blocks).ext_seqnum = none ∧
    (GetStats ssrc cs none blocks).jitter_ms = none := by
  unfold GetStats
  simp

end AudioSendStream
